import Mathlib

/-!
The wlr-output-power-management-unstable-v1 protocol, server side.

A shallow embedding of the generated server header
`wlr-output-power-management-unstable-v1-protocol.h`: the two enumerations, the
event opcodes, the since-version constants, the two request handler tables and
the two inline event senders.  The handlers themselves and the transport
runtime are not part of the header; they are modelled separately below and
marked as such.
-/

namespace WlrOutputPower

/-! ## Enumerations and constants of the header -/

/-- Enumerator `ZWLR_OUTPUT_POWER_V1_MODE_OFF = 0`: output is turned off. -/
def ZWLR_OUTPUT_POWER_V1_MODE_OFF : Nat := 0

/-- Enumerator `ZWLR_OUTPUT_POWER_V1_MODE_ON = 1`: output is turned on. -/
def ZWLR_OUTPUT_POWER_V1_MODE_ON : Nat := 1

/-- The enumerators of `enum zwlr_output_power_v1_mode`, in declaration order. -/
def zwlr_output_power_v1_mode : List Nat :=
  [ZWLR_OUTPUT_POWER_V1_MODE_OFF, ZWLR_OUTPUT_POWER_V1_MODE_ON]

/-- Enumerator `ZWLR_OUTPUT_POWER_V1_ERROR_INVALID_MODE = 1`. -/
def ZWLR_OUTPUT_POWER_V1_ERROR_INVALID_MODE : Nat := 1

/-- The enumerators of `enum zwlr_output_power_v1_error`, in declaration order. -/
def zwlr_output_power_v1_error : List Nat :=
  [ZWLR_OUTPUT_POWER_V1_ERROR_INVALID_MODE]

/-- Event opcode `#define ZWLR_OUTPUT_POWER_V1_MODE 0`. -/
def ZWLR_OUTPUT_POWER_V1_MODE : Nat := 0

/-- Event opcode `#define ZWLR_OUTPUT_POWER_V1_FAILED 1`. -/
def ZWLR_OUTPUT_POWER_V1_FAILED : Nat := 1

def ZWLR_OUTPUT_POWER_MANAGER_V1_GET_OUTPUT_POWER_SINCE_VERSION : Nat := 1
def ZWLR_OUTPUT_POWER_MANAGER_V1_DESTROY_SINCE_VERSION : Nat := 1
def ZWLR_OUTPUT_POWER_V1_MODE_SINCE_VERSION : Nat := 1
def ZWLR_OUTPUT_POWER_V1_FAILED_SINCE_VERSION : Nat := 1
def ZWLR_OUTPUT_POWER_V1_SET_MODE_SINCE_VERSION : Nat := 1
def ZWLR_OUTPUT_POWER_V1_DESTROY_SINCE_VERSION : Nat := 1

/-! ## Request handler tables -/

/-- The C parameter types that occur in the handler tables. -/
inductive c_type where
  | wl_client_ptr
  | wl_resource_ptr
  | uint32_t
  deriving DecidableEq, Repr

/-- One function-pointer member of a handler table: its name, its parameters
(type and name, in order) and the since-version constant of the request. -/
structure request_handler where
  name : String
  params : List (c_type × String)
  since : Nat
  deriving DecidableEq, Repr

/-- The parameters that carry the request's own arguments: every handler
receives the client and the resource first. -/
def request_handler.args (h : request_handler) : List (c_type × String) :=
  h.params.drop 2

/-- The members of `struct zwlr_output_power_manager_v1_interface`, in order. -/
def zwlr_output_power_manager_v1_interface : List request_handler :=
  [ { name := "get_output_power"
      params := [(c_type.wl_client_ptr, "client"), (c_type.wl_resource_ptr, "resource"),
                 (c_type.uint32_t, "id"), (c_type.wl_resource_ptr, "output")]
      since := ZWLR_OUTPUT_POWER_MANAGER_V1_GET_OUTPUT_POWER_SINCE_VERSION },
    { name := "destroy"
      params := [(c_type.wl_client_ptr, "client"), (c_type.wl_resource_ptr, "resource")]
      since := ZWLR_OUTPUT_POWER_MANAGER_V1_DESTROY_SINCE_VERSION } ]

/-- The members of `struct zwlr_output_power_v1_interface`, in order. -/
def zwlr_output_power_v1_interface : List request_handler :=
  [ { name := "set_mode"
      params := [(c_type.wl_client_ptr, "client"), (c_type.wl_resource_ptr, "resource"),
                 (c_type.uint32_t, "mode")]
      since := ZWLR_OUTPUT_POWER_V1_SET_MODE_SINCE_VERSION },
    { name := "destroy"
      params := [(c_type.wl_client_ptr, "client"), (c_type.wl_resource_ptr, "resource")]
      since := ZWLR_OUTPUT_POWER_V1_DESTROY_SINCE_VERSION } ]

/-- The since-version constants of the two events of `zwlr_output_power_v1`,
indexed by event opcode. -/
def zwlr_output_power_v1_event_since : List (Nat × Nat) :=
  [ (ZWLR_OUTPUT_POWER_V1_MODE, ZWLR_OUTPUT_POWER_V1_MODE_SINCE_VERSION),
    (ZWLR_OUTPUT_POWER_V1_FAILED, ZWLR_OUTPUT_POWER_V1_FAILED_SINCE_VERSION) ]

/-! ## Transport runtime -/

/-- An event as handed to the runtime: the resource it is posted on, the
opcode, and the arguments in order. -/
structure wl_event where
  resource : Nat
  opcode : Nat
  args : List Nat
  deriving DecidableEq, Repr

/-- A protocol error as handed to the runtime: the resource and the code. -/
structure wl_error where
  resource : Nat
  code : Nat
  deriving DecidableEq, Repr

/-- What the runtime has been given so far, oldest first. A `struct wl_resource *`
is a natural number. -/
structure wl_display where
  events : List wl_event
  errors : List wl_error
  deriving DecidableEq, Repr

/-- Modelled from the spec: `wl_resource_post_event` belongs to the transport
runtime, which the header only calls. The connection component supplies event
delivery and the client observes events in the order the server enqueues
them: the call enqueues one event, behind everything enqueued before. -/
def wl_resource_post_event (d : wl_display) (resource opcode : Nat) (args : List Nat) :
    wl_display :=
  { d with events := d.events ++ [{ resource := resource, opcode := opcode, args := args }] }

/-- Modelled from the spec: `wl_resource_post_error` belongs to the transport
runtime. It records an object-scoped fatal error with the given code. -/
def wl_resource_post_error (d : wl_display) (resource code : Nat) : wl_display :=
  { d with errors := d.errors ++ [{ resource := resource, code := code }] }

/-! ## The inline event senders of the header -/

/-- The inline `zwlr_output_power_v1_send_mode(resource_, mode)`. -/
def zwlr_output_power_v1_send_mode (d : wl_display) (resource_ mode : Nat) : wl_display :=
  wl_resource_post_event d resource_ ZWLR_OUTPUT_POWER_V1_MODE [mode]

/-- The inline `zwlr_output_power_v1_send_failed(resource_)`. -/
def zwlr_output_power_v1_send_failed (d : wl_display) (resource_ : Nat) : wl_display :=
  wl_resource_post_event d resource_ ZWLR_OUTPUT_POWER_V1_FAILED []

/-- One call of an event sender of `zwlr_output_power_v1`. -/
inductive send_call where
  | send_mode (mode : Nat)
  | send_failed
  deriving DecidableEq, Repr

/-- Performs one sender call on a resource. -/
def send_call.run (d : wl_display) (resource_ : Nat) : send_call → wl_display
  | send_call.send_mode mode => zwlr_output_power_v1_send_mode d resource_ mode
  | send_call.send_failed => zwlr_output_power_v1_send_failed d resource_

/-- Performs a sequence of sender calls on one resource, first call first. -/
def run_calls (d : wl_display) (resource_ : Nat) : List send_call → wl_display
  | [] => d
  | c :: cs => run_calls (send_call.run d resource_ c) resource_ cs

/-- The event a sender call is expected to put on the wire. -/
def send_call.event (resource_ : Nat) : send_call → wl_event
  | send_call.send_mode mode =>
      { resource := resource_, opcode := ZWLR_OUTPUT_POWER_V1_MODE, args := [mode] }
  | send_call.send_failed =>
      { resource := resource_, opcode := ZWLR_OUTPUT_POWER_V1_FAILED, args := [] }

/-- The events posted on one resource, oldest first. -/
def wl_display.queue (d : wl_display) (resource : Nat) : List wl_event :=
  d.events.filter (fun e => e.resource = resource)

/-! ## The compositor side of the protocol

The header declares the request handlers as function pointers only. Their
behaviour is taken from the protocol description. -/

/-- Modelled from the spec: an output as the output-registry collaborator
presents it: an identifier, the current power mode, and the modes its
hardware can enter. -/
structure wl_output where
  id : Nat
  mode : Nat
  supported : List Nat
  deriving DecidableEq, Repr

/-- Modelled from the spec: a live OutputPowerControl: its resource, the
manager it was created through, and the optional reference to its output
(`none` once the output has been removed). -/
structure output_power where
  resource : Nat
  manager : Nat
  output : Option Nat
  deriving DecidableEq, Repr

/-- Modelled from the spec: the states of an OutputPowerControl. -/
inductive control_state where
  | ACTIVE
  | INERT
  | DESTROYED
  deriving DecidableEq, Repr

/-- Modelled from the spec: the compositor: the runtime, the outputs, the live
managers and the registration table of live controls. -/
structure compositor where
  display : wl_display
  outputs : List wl_output
  managers : List Nat
  controls : List output_power
  deriving DecidableEq, Repr

/-- The live control behind a resource, if any. -/
def compositor.control (w : compositor) (resource : Nat) : Option output_power :=
  w.controls.find? (fun c => c.resource = resource)

/-- The output with a given identifier, if it is present. -/
def compositor.output (w : compositor) (o : Nat) : Option wl_output :=
  w.outputs.find? (fun out => out.id = o)

/-- The power mode of an output, if it is present. -/
def compositor.power_mode (w : compositor) (o : Nat) : Option Nat :=
  (w.output o).map (fun out => out.mode)

/-- Modelled from the spec: the state machine of an OutputPowerControl, read
off the registration table: a control that is no longer registered is
DESTROYED, one whose output reference is gone is INERT. -/
def compositor.state_of (w : compositor) (resource : Nat) : control_state :=
  match w.control resource with
  | none => control_state.DESTROYED
  | some c =>
    match c.output with
    | some _ => control_state.ACTIVE
    | none => control_state.INERT

/-- Writes a power mode into every output entry with the given identifier. -/
def set_power (outputs : List wl_output) (o mode : Nat) : List wl_output :=
  outputs.map (fun out => if out.id = o then { out with mode := mode } else out)

/-- Modelled from the spec: the `mode` event goes to every OutputPowerControl
bound to the output, in registration order. -/
def broadcast_mode (d : wl_display) (o mode : Nat) : List output_power → wl_display
  | [] => d
  | c :: cs =>
    broadcast_mode
      (if c.output = some o then zwlr_output_power_v1_send_mode d c.resource mode else d)
      o mode cs

/-- Modelled from the spec: the handler behind
`zwlr_output_power_manager_v1_interface.get_output_power`. It registers a new
control bound to the output and announces the output's current mode on it; an
output that is not present gives a control that is inert from the start. -/
def zwlr_output_power_manager_v1_get_output_power (w : compositor)
    (resource id output : Nat) : compositor :=
  if resource ∈ w.managers then
    match w.output output with
    | some out =>
      { w with
        controls := w.controls ++ [{ resource := id, manager := resource, output := some output }]
        display := zwlr_output_power_v1_send_mode w.display id out.mode }
    | none =>
      { w with
        controls := w.controls ++ [{ resource := id, manager := resource, output := none }] }
  else w

/-- Modelled from the spec: the handler behind
`zwlr_output_power_manager_v1_interface.destroy`. It releases the manager
object and has no side effect on the controls created through it. -/
def zwlr_output_power_manager_v1_destroy (w : compositor) (resource : Nat) : compositor :=
  { w with managers := w.managers.filter (fun m => m ≠ resource) }

/-- Modelled from the spec: the handler behind
`zwlr_output_power_v1_interface.set_mode`. A request on an inert control, one
whose bound output has been removed, is silently absorbed: no event and no
error, whatever the value. On an active control a value outside the
enumeration is a protocol violation: `INVALID_MODE` is posted on the object.
A recognised mode the output cannot enter gives `failed` on the requesting
object and leaves the output as it is. A recognised, supported mode is
applied at once and `mode` is sent to every control bound to the output. -/
def zwlr_output_power_v1_set_mode (w : compositor) (resource mode : Nat) : compositor :=
  match w.control resource with
  | none => w
  | some c =>
    match c.output with
    | none => w
    | some o =>
      if mode ∈ zwlr_output_power_v1_mode then
        match w.output o with
        | none => w
        | some out =>
          if mode ∈ out.supported then
            { w with
              outputs := set_power w.outputs o mode
              display := broadcast_mode w.display o mode w.controls }
          else
            { w with display := zwlr_output_power_v1_send_failed w.display resource }
      else
        { w with
          display := wl_resource_post_error w.display resource
            ZWLR_OUTPUT_POWER_V1_ERROR_INVALID_MODE }

/-- Modelled from the spec: the handler behind
`zwlr_output_power_v1_interface.destroy`. It releases the control and leaves
the output's power mode as last set. -/
def zwlr_output_power_v1_destroy (w : compositor) (resource : Nat) : compositor :=
  { w with controls := w.controls.filter (fun c => c.resource ≠ resource) }

/-- Modelled from the spec: removal of an output by the compositor. Every
control bound to it loses its reference and becomes inert. -/
def output_removed (w : compositor) (o : Nat) : compositor :=
  { w with
    outputs := w.outputs.filter (fun out => out.id ≠ o)
    controls := w.controls.map
      (fun c => if c.output = some o then { c with output := none } else c) }

/-- The events the runtime received between an earlier and a later state. -/
def new_events (before after : wl_display) : List wl_event :=
  after.events.drop before.events.length

/-- No two registered controls share a resource. -/
def compositor.distinct_resources (w : compositor) : Prop :=
  (w.controls.map (fun c => c.resource)).Nodup

instance (w : compositor) : Decidable w.distinct_resources :=
  inferInstanceAs (Decidable (List.Nodup _))

/-- A small compositor used for concrete checks: output 7 is on and supports
both modes, output 8 is on and cannot be turned off; controls 10 and 11 are
bound to output 7, control 12 to output 8, control 13 is inert. -/
def sample : compositor :=
  { display := { events := [], errors := [] }
    outputs := [{ id := 7, mode := 1, supported := [0, 1] },
                { id := 8, mode := 1, supported := [1] }]
    managers := [1]
    controls := [{ resource := 10, manager := 1, output := some 7 },
                 { resource := 11, manager := 1, output := some 7 },
                 { resource := 12, manager := 1, output := some 8 },
                 { resource := 13, manager := 1, output := none }] }

/-! ## Auxiliary facts about the runtime -/

theorem post_event_events (d : wl_display) (r op : Nat) (args : List Nat) :
    (wl_resource_post_event d r op args).events =
      d.events ++ [{ resource := r, opcode := op, args := args }] := rfl

theorem post_event_errors (d : wl_display) (r op : Nat) (args : List Nat) :
    (wl_resource_post_event d r op args).errors = d.errors := rfl

theorem new_events_append (d d' : wl_display) (l : List wl_event)
    (h : d'.events = d.events ++ l) : new_events d d' = l := by
  simp [new_events, h]

theorem run_calls_events (r : Nat) (calls : List send_call) :
    ∀ d : wl_display,
      (run_calls d r calls).events = d.events ++ calls.map (send_call.event r) := by
  induction calls with
  | nil => intro d; simp [run_calls]
  | cons c cs ih =>
    intro d
    rw [run_calls, ih]
    cases c <;>
      simp [send_call.run, send_call.event, zwlr_output_power_v1_send_mode,
        zwlr_output_power_v1_send_failed, post_event_events]

theorem run_calls_errors (r : Nat) (calls : List send_call) :
    ∀ d : wl_display, (run_calls d r calls).errors = d.errors := by
  induction calls with
  | nil => intro d; rfl
  | cons c cs ih =>
    intro d
    rw [run_calls, ih]
    cases c <;> rfl

theorem event_resource (r : Nat) (c : send_call) : (send_call.event r c).resource = r := by
  cases c <;> rfl

/-! ## The enumerations -/

/-- C5: the power mode enumeration has exactly two distinct enumerators,
OFF encoded as 0 and ON encoded as 1, and a number is one of its values
exactly when it is 0 or 1. -/
theorem mode_enum_closed :
    zwlr_output_power_v1_mode.length = 2 ∧
    zwlr_output_power_v1_mode.Nodup ∧
    ZWLR_OUTPUT_POWER_V1_MODE_OFF = 0 ∧
    ZWLR_OUTPUT_POWER_V1_MODE_ON = 1 ∧
    ∀ n : Nat, n ∈ zwlr_output_power_v1_mode ↔ n = 0 ∨ n = 1 := by
  refine ⟨rfl, by decide, rfl, rfl, ?_⟩
  intro n
  simp [zwlr_output_power_v1_mode, ZWLR_OUTPUT_POWER_V1_MODE_OFF, ZWLR_OUTPUT_POWER_V1_MODE_ON]

/-- C6: the error enumeration of the control object has the single
enumerator INVALID_MODE, with code 1. -/
theorem error_enum_invalid_mode :
    ZWLR_OUTPUT_POWER_V1_ERROR_INVALID_MODE = 1 ∧
    zwlr_output_power_v1_error = [ZWLR_OUTPUT_POWER_V1_ERROR_INVALID_MODE] ∧
    zwlr_output_power_v1_error.length = 1 ∧
    ∀ n : Nat, n ∈ zwlr_output_power_v1_error ↔ n = 1 := by
  refine ⟨rfl, rfl, rfl, ?_⟩
  intro n
  simp [zwlr_output_power_v1_error, ZWLR_OUTPUT_POWER_V1_ERROR_INVALID_MODE]

/-! ## The event senders -/

/-- C7: for every resource and every mode value, recognised or not,
`zwlr_output_power_v1_send_mode` hands the runtime exactly one event: it is on
that resource, has opcode 0 and carries the mode value unchanged as its only
argument. Nothing is posted on another resource and no error is raised. -/
theorem send_mode_posts_one_mode_event (d : wl_display) (r m : Nat) :
    (zwlr_output_power_v1_send_mode d r m).events =
      d.events ++ [{ resource := r, opcode := 0, args := [m] }] ∧
    new_events d (zwlr_output_power_v1_send_mode d r m) =
      [{ resource := r, opcode := 0, args := [m] }] ∧
    (∀ r2 : Nat, (zwlr_output_power_v1_send_mode d r m).queue r2 =
      if r2 = r then d.queue r ++ [{ resource := r, opcode := 0, args := [m] }]
      else d.queue r2) ∧
    (zwlr_output_power_v1_send_mode d r m).errors = d.errors := by
  have h : (zwlr_output_power_v1_send_mode d r m).events =
      d.events ++ [{ resource := r, opcode := 0, args := [m] }] := rfl
  refine ⟨h, new_events_append _ _ _ h, ?_, rfl⟩
  intro r2
  by_cases hr : r2 = r
  · subst hr
    simp [wl_display.queue, h]
  · have hr2 : ¬ r = r2 := fun e => hr e.symm
    simp [wl_display.queue, h, hr, hr2]

/-- C8: for every resource, `zwlr_output_power_v1_send_failed` hands the
runtime exactly one event: it is on that resource, has opcode 1 and carries no
argument. Nothing is posted on another resource. The opcode differs from the
one of the mode event, so the event differs from every event a
`zwlr_output_power_v1_send_mode` call posts. -/
theorem send_failed_posts_one_failed_event (d : wl_display) (r : Nat) :
    (zwlr_output_power_v1_send_failed d r).events =
      d.events ++ [{ resource := r, opcode := 1, args := [] }] ∧
    new_events d (zwlr_output_power_v1_send_failed d r) =
      [{ resource := r, opcode := 1, args := [] }] ∧
    (∀ r2 : Nat, (zwlr_output_power_v1_send_failed d r).queue r2 =
      if r2 = r then d.queue r ++ [{ resource := r, opcode := 1, args := [] }]
      else d.queue r2) ∧
    (zwlr_output_power_v1_send_failed d r).errors = d.errors ∧
    ZWLR_OUTPUT_POWER_V1_FAILED ≠ ZWLR_OUTPUT_POWER_V1_MODE ∧
    (∀ (d2 : wl_display) (r2 m : Nat),
      new_events d (zwlr_output_power_v1_send_failed d r) ≠
        new_events d2 (zwlr_output_power_v1_send_mode d2 r2 m)) := by
  have h : (zwlr_output_power_v1_send_failed d r).events =
      d.events ++ [{ resource := r, opcode := 1, args := [] }] := rfl
  refine ⟨h, new_events_append _ _ _ h, ?_, rfl, by decide, ?_⟩
  · intro r2
    by_cases hr : r2 = r
    · subst hr
      simp [wl_display.queue, h]
    · have hr2 : ¬ r = r2 := fun e => hr e.symm
      simp [wl_display.queue, h, hr, hr2]
  · intro d2 r2 m
    have h2 : (zwlr_output_power_v1_send_mode d2 r2 m).events =
        d2.events ++ [{ resource := r2, opcode := 0, args := [m] }] := rfl
    rw [new_events_append _ _ _ h, new_events_append _ _ _ h2]
    simp

/-- C10: a finite sequence of `send_mode` and `send_failed` calls on one
resource enqueues one event per call, in the order of the calls, behind what
was enqueued before; queues of other resources are untouched. In particular a
failed event posted after a mode event sits at a later position. -/
theorem run_calls_order (d : wl_display) (r : Nat) (calls : List send_call) :
    (run_calls d r calls).events = d.events ++ calls.map (send_call.event r) ∧
    (run_calls d r calls).queue r = d.queue r ++ calls.map (send_call.event r) ∧
    (new_events d (run_calls d r calls)).length = calls.length ∧
    (∀ r2 : Nat, r2 ≠ r → (run_calls d r calls).queue r2 = d.queue r2) ∧
    (∀ (i j m : Nat), i < j →
      calls[i]? = some (send_call.send_mode m) →
      calls[j]? = some send_call.send_failed →
      (run_calls d r calls).events[d.events.length + i]? =
        some { resource := r, opcode := 0, args := [m] } ∧
      (run_calls d r calls).events[d.events.length + j]? =
        some { resource := r, opcode := 1, args := [] }) := by
  have h := run_calls_events r calls d
  refine ⟨h, ?_, ?_, ?_, ?_⟩
  · simp [wl_display.queue, h, List.filter_eq_self, event_resource]
  · rw [new_events_append _ _ _ h]; simp
  · intro r2 hr
    have hr2 : ¬ r = r2 := fun e => hr e.symm
    simp [wl_display.queue, h, List.filter_eq_nil_iff, event_resource, hr2]
  · intro i j m _ hi hj
    rw [h]
    constructor
    · rw [List.getElem?_append_right (Nat.le_add_right _ _)]
      simp [hi, send_call.event, ZWLR_OUTPUT_POWER_V1_MODE]
    · rw [List.getElem?_append_right (Nat.le_add_right _ _)]
      simp [hj, send_call.event, ZWLR_OUTPUT_POWER_V1_FAILED]

/-! ## The request tables -/

/-- C9: the manager's handler table is get_output_power (a new object id and
an output resource) followed by destroy (no argument); the control's handler
table is set_mode (one 32-bit unsigned mode) followed by destroy (no
argument); every request and both events are available since version 1. -/
theorem request_tables :
    zwlr_output_power_manager_v1_interface.map (fun h => h.name) =
      ["get_output_power", "destroy"] ∧
    zwlr_output_power_manager_v1_interface.map request_handler.args =
      [[(c_type.uint32_t, "id"), (c_type.wl_resource_ptr, "output")], []] ∧
    zwlr_output_power_v1_interface.map (fun h => h.name) = ["set_mode", "destroy"] ∧
    zwlr_output_power_v1_interface.map request_handler.args =
      [[(c_type.uint32_t, "mode")], []] ∧
    (∀ h ∈ zwlr_output_power_manager_v1_interface ++ zwlr_output_power_v1_interface,
      h.since = 1) ∧
    zwlr_output_power_v1_event_since = [(0, 1), (1, 1)] := by
  refine ⟨rfl, rfl, rfl, rfl, ?_, rfl⟩
  intro h hh
  simp [zwlr_output_power_manager_v1_interface, zwlr_output_power_v1_interface] at hh
  rcases hh with rfl | rfl | rfl | rfl <;> rfl

/-! ## Auxiliary facts about the compositor -/

theorem broadcast_mode_events (o m : Nat) (cs : List output_power) :
    ∀ d : wl_display,
      (broadcast_mode d o m cs).events =
        d.events ++ (cs.filter (fun c => c.output = some o)).map
          (fun c => { resource := c.resource, opcode := 0, args := [m] }) := by
  induction cs with
  | nil => intro d; simp [broadcast_mode]
  | cons c cs ih =>
    intro d
    rw [broadcast_mode, ih]
    by_cases hc : c.output = some o
    · simp [hc, zwlr_output_power_v1_send_mode, post_event_events,
        ZWLR_OUTPUT_POWER_V1_MODE]
    · simp [hc]

theorem broadcast_mode_errors (o m : Nat) (cs : List output_power) :
    ∀ d : wl_display, (broadcast_mode d o m cs).errors = d.errors := by
  induction cs with
  | nil => intro d; rfl
  | cons c cs ih =>
    intro d
    rw [broadcast_mode, ih]
    by_cases hc : c.output = some o
    · simp [hc, zwlr_output_power_v1_send_mode, post_event_errors]
    · simp [hc]

theorem set_power_find (o m : Nat) (outs : List wl_output) :
    (set_power outs o m).find? (fun out => out.id = o) =
      (outs.find? (fun out => out.id = o)).map (fun out => { out with mode := m }) := by
  induction outs with
  | nil => rfl
  | cons a as ih =>
    by_cases ha : a.id = o
    · simp [set_power, List.find?, ha]
    · have ih2 := ih
      simp only [set_power] at ih2
      simp [set_power, List.find?, ha, ih2]

theorem set_power_find_other (o o2 m : Nat) (h : o2 ≠ o) (outs : List wl_output) :
    (set_power outs o m).find? (fun out => out.id = o2) =
      outs.find? (fun out => out.id = o2) := by
  induction outs with
  | nil => rfl
  | cons a as ih =>
    have ih2 := ih
    simp only [set_power] at ih2
    by_cases ha : a.id = o
    · have ha2 : ¬ o = o2 := fun e => h e.symm
      simp [set_power, List.find?, ha, ha2, ih2]
    · by_cases hb : a.id = o2
      · simp [set_power, List.find?, ha, hb, h]
      · simp [set_power, List.find?, ha, hb, ih2]

theorem one_event_each (m : Nat) (p : output_power → Bool) (l : List output_power) :
    (l.map (fun c => c.resource)).Nodup →
    ∀ c ∈ l, p c = true →
      ((l.filter p).map
        (fun c => ({ resource := c.resource, opcode := 0, args := [m] } : wl_event))).filter
        (fun e => e.resource = c.resource) =
        [{ resource := c.resource, opcode := 0, args := [m] }] := by
  induction l with
  | nil => intro _ c hc; cases hc
  | cons a as ih =>
    intro hnd c hc hp
    rw [List.map_cons, List.nodup_cons] at hnd
    rcases List.mem_cons.mp hc with rfl | hmem
    · have hrest : ∀ x ∈ as, ¬ x.resource = c.resource := by
        intro x hx e
        exact hnd.1 (List.mem_map.mpr ⟨x, hx, e⟩)
      simp [List.filter_cons, hp, List.filter_eq_nil_iff]
      rintro e x hx _ rfl
      exact hrest x hx
    · have hne : ¬ a.resource = c.resource := by
        intro e
        exact hnd.1 (List.mem_map.mpr ⟨c, hmem, e.symm⟩)
      have := ih hnd.2 c hmem hp
      by_cases hpa : p a = true
      · simp [List.filter_cons, hpa, hne]
        simpa using this
      · simp [List.filter_cons, hpa]
        simpa using this

theorem no_event_elsewhere (m r : Nat) (p : output_power → Bool) (l : List output_power)
    (h : ∀ c ∈ l, p c = true → c.resource ≠ r) :
    ((l.filter p).map
      (fun c => ({ resource := c.resource, opcode := 0, args := [m] } : wl_event))).filter
      (fun e => e.resource = r) = [] := by
  simp only [List.filter_eq_nil_iff, List.mem_map, List.mem_filter]
  rintro e ⟨c, ⟨hc, hp⟩, rfl⟩
  simpa using h c hc hp

theorem control_mem (w : compositor) (r : Nat) (c : output_power)
    (h : w.control r = some c) : c ∈ w.controls ∧ c.resource = r := by
  unfold compositor.control at h
  refine ⟨List.mem_of_find?_eq_some h, ?_⟩
  simpa using List.find?_some h

/-! ## Distinct resources are preserved by every handler -/

theorem get_output_power_distinct (w : compositor) (mgr id o : Nat)
    (hd : w.distinct_resources) (hfresh : id ∉ w.controls.map (fun c => c.resource)) :
    (zwlr_output_power_manager_v1_get_output_power w mgr id o).distinct_resources := by
  unfold compositor.distinct_resources at hd ⊢
  unfold zwlr_output_power_manager_v1_get_output_power
  split
  · split <;>
    · simp only [List.map_append, List.map_cons, List.map_nil]
      rw [List.nodup_append]
      refine ⟨hd, List.nodup_singleton _, ?_⟩
      intro a ha hb
      rw [List.mem_singleton] at hb
      subst hb
      exact hfresh ha
  · exact hd

theorem set_mode_distinct (w : compositor) (r m : Nat) (hd : w.distinct_resources) :
    (zwlr_output_power_v1_set_mode w r m).distinct_resources := by
  have hcs : (zwlr_output_power_v1_set_mode w r m).controls = w.controls := by
    unfold zwlr_output_power_v1_set_mode
    repeat' split
    all_goals rfl
  unfold compositor.distinct_resources
  rw [hcs]
  exact hd

theorem destroy_distinct (w : compositor) (r : Nat) (hd : w.distinct_resources) :
    (zwlr_output_power_v1_destroy w r).distinct_resources := by
  unfold compositor.distinct_resources at hd ⊢
  exact (List.filter_sublist _).map _ |>.nodup hd

theorem output_removed_distinct (w : compositor) (o : Nat) (hd : w.distinct_resources) :
    (output_removed w o).distinct_resources := by
  unfold compositor.distinct_resources at hd ⊢
  have hmap : (output_removed w o).controls.map (fun c => c.resource) =
      w.controls.map (fun c => c.resource) := by
    simp only [output_removed, List.map_map]
    apply List.map_congr_left
    intro c _
    simp only [Function.comp]
    split <;> rfl
  rw [hmap]
  exact hd

/-! ## The set_mode request -/

/-- A set_mode request on an inert control is absorbed whatever its value:
the compositor, and with it the events and the errors, stays as it was. -/
theorem set_mode_inert (w : compositor) (r m : Nat)
    (hs : w.state_of r = control_state.INERT) :
    zwlr_output_power_v1_set_mode w r m = w := by
  unfold compositor.state_of at hs
  cases hc : w.control r with
  | none => simp [zwlr_output_power_v1_set_mode, hc]
  | some c =>
    rw [hc] at hs
    cases ho : c.output with
    | none => simp [zwlr_output_power_v1_set_mode, hc, ho]
    | some o =>
      simp only [ho] at hs
      cases hs

/-- C2: a set_mode request with a recognised mode that the bound output does
not support posts exactly one event, a failed event on the requesting
control; no mode event and no error is posted, and the outputs, in particular
the power mode of the bound output, stay as they were. -/
theorem set_mode_unsupported (w : compositor) (r m o : Nat) (c : output_power)
    (out : wl_output) (hc : w.control r = some c) (ho : c.output = some o)
    (hout : w.output o = some out) (hm : m ∈ zwlr_output_power_v1_mode)
    (hs : m ∉ out.supported) :
    new_events w.display (zwlr_output_power_v1_set_mode w r m).display =
      [{ resource := r, opcode := 1, args := [] }] ∧
    (zwlr_output_power_v1_set_mode w r m).outputs = w.outputs ∧
    (zwlr_output_power_v1_set_mode w r m).power_mode o = w.power_mode o ∧
    (zwlr_output_power_v1_set_mode w r m).display.errors = w.display.errors ∧
    (zwlr_output_power_v1_set_mode w r m).controls = w.controls := by
  have hw : zwlr_output_power_v1_set_mode w r m =
      { w with display := zwlr_output_power_v1_send_failed w.display r } := by
    simp [zwlr_output_power_v1_set_mode, hc, hm, ho, hout, hs]
  rw [hw]
  refine ⟨?_, rfl, rfl, rfl, rfl⟩
  exact new_events_append _ _ _ rfl

/-- C3: a set_mode request with a recognised mode that the bound output
supports makes that mode the output's power mode and posts exactly one
mode event carrying it on every control bound to that output, the requesting
one included; no failed event, no error and no event on any other control is
posted, and no other output changes. -/
theorem set_mode_supported (w : compositor) (r m o : Nat) (c : output_power)
    (out : wl_output) (hd : w.distinct_resources) (hc : w.control r = some c)
    (ho : c.output = some o) (hout : w.output o = some out)
    (hm : m ∈ zwlr_output_power_v1_mode) (hs : m ∈ out.supported) :
    (zwlr_output_power_v1_set_mode w r m).power_mode o = some m ∧
    (∀ c2 ∈ w.controls, c2.output = some o →
      (new_events w.display (zwlr_output_power_v1_set_mode w r m).display).filter
        (fun e => e.resource = c2.resource) =
        [{ resource := c2.resource, opcode := 0, args := [m] }]) ∧
    (new_events w.display (zwlr_output_power_v1_set_mode w r m).display).filter
        (fun e => e.resource = r) = [{ resource := r, opcode := 0, args := [m] }] ∧
    (∀ c2 ∈ w.controls, c2.output ≠ some o →
      (new_events w.display (zwlr_output_power_v1_set_mode w r m).display).filter
        (fun e => e.resource = c2.resource) = []) ∧
    (∀ e ∈ new_events w.display (zwlr_output_power_v1_set_mode w r m).display,
      e.opcode = 0 ∧ e.args = [m]) ∧
    (zwlr_output_power_v1_set_mode w r m).display.errors = w.display.errors ∧
    (zwlr_output_power_v1_set_mode w r m).controls = w.controls ∧
    (∀ o2 : Nat, o2 ≠ o →
      (zwlr_output_power_v1_set_mode w r m).power_mode o2 = w.power_mode o2) := by
  have hw : zwlr_output_power_v1_set_mode w r m =
      { w with
        outputs := set_power w.outputs o m
        display := broadcast_mode w.display o m w.controls } := by
    simp [zwlr_output_power_v1_set_mode, hc, hm, ho, hout, hs]
  have hnew : new_events w.display (zwlr_output_power_v1_set_mode w r m).display =
      (w.controls.filter (fun c => c.output = some o)).map
        (fun c => { resource := c.resource, opcode := 0, args := [m] }) := by
    rw [hw]
    exact new_events_append _ _ _ (broadcast_mode_events o m w.controls w.display)
  have hcm := control_mem w r c hc
  have hall : ∀ c2 ∈ w.controls, c2.output = some o →
      (new_events w.display (zwlr_output_power_v1_set_mode w r m).display).filter
        (fun e => e.resource = c2.resource) =
        [{ resource := c2.resource, opcode := 0, args := [m] }] := by
    intro c2 hc2 hb
    rw [hnew]
    exact one_event_each m (fun c => c.output = some o) w.controls hd c2 hc2 (by simpa using hb)
  refine ⟨?_, hall, ?_, ?_, ?_, ?_, ?_, ?_⟩
  · rw [hw]
    have hf := set_power_find o m w.outputs
    have hout2 : w.outputs.find? (fun out => out.id = o) = some out := hout
    simp only [compositor.power_mode, compositor.output]
    rw [hf, hout2]
    rfl
  · have := hall c hcm.1 ho
    rw [hcm.2] at this
    exact this
  · intro c2 hc2 hb
    rw [hnew]
    apply no_event_elsewhere
    intro c3 hc3 hp3 heq
    have hp3b : c3.output = some o := by simpa using hp3
    have hinj : c3 = c2 := by
      have hd2 : (w.controls.map (fun c => c.resource)).Nodup := hd
      exact List.inj_on_of_nodup_map hd2 hc3 hc2 heq
    rw [hinj] at hp3b
    exact hb hp3b
  · intro e he
    rw [hnew] at he
    simp only [List.mem_map, List.mem_filter] at he
    obtain ⟨c2, _, rfl⟩ := he
    exact ⟨rfl, rfl⟩
  · rw [hw]
    exact broadcast_mode_errors o m w.controls w.display
  · rw [hw]
  · intro o2 h2
    rw [hw]
    simp only [compositor.power_mode, compositor.output]
    rw [set_power_find_other o o2 m h2]

/-! ## Destroying the manager -/

/-- C4: destroying the manager leaves the registered controls, their states
and their bound outputs as they were and posts no event and no error; the
controls still accept requests: a set_mode or destroy request handled after
the manager is gone has the effect it would have had with the manager
alive. -/
theorem manager_destroy_independent (w : compositor) (mgr : Nat) :
    (zwlr_output_power_manager_v1_destroy w mgr).controls = w.controls ∧
    (∀ c ∈ w.controls, c.manager = mgr →
      c ∈ (zwlr_output_power_manager_v1_destroy w mgr).controls) ∧
    (∀ r : Nat, (zwlr_output_power_manager_v1_destroy w mgr).state_of r = w.state_of r) ∧
    (zwlr_output_power_manager_v1_destroy w mgr).outputs = w.outputs ∧
    (zwlr_output_power_manager_v1_destroy w mgr).display = w.display ∧
    new_events w.display (zwlr_output_power_manager_v1_destroy w mgr).display = [] ∧
    (∀ r m : Nat,
      zwlr_output_power_v1_set_mode (zwlr_output_power_manager_v1_destroy w mgr) r m =
        zwlr_output_power_manager_v1_destroy (zwlr_output_power_v1_set_mode w r m) mgr) ∧
    (∀ r : Nat,
      zwlr_output_power_v1_destroy (zwlr_output_power_manager_v1_destroy w mgr) r =
        zwlr_output_power_manager_v1_destroy (zwlr_output_power_v1_destroy w r) mgr) := by
  refine ⟨rfl, fun c hc _ => hc, fun _ => rfl, rfl, rfl, ?_, ?_, fun _ => rfl⟩
  · simp [new_events, zwlr_output_power_manager_v1_destroy]
  · intro r m
    simp only [zwlr_output_power_v1_set_mode, zwlr_output_power_manager_v1_destroy,
      compositor.control, compositor.output]
    cases w.controls.find? (fun c => c.resource = r) with
    | none => rfl
    | some c =>
      simp only
      cases c.output with
      | none => rfl
      | some o =>
        simp only
        split
        · cases w.outputs.find? (fun out => out.id = o) with
          | none => rfl
          | some out =>
            simp only
            split <;> rfl
        · rfl

/-! ## Concrete instances -/

theorem set_mode_unsupported_witness :
    sample.control 12 = some { resource := 12, manager := 1, output := some 8 } ∧
    sample.output 8 = some { id := 8, mode := 1, supported := [1] } ∧
    0 ∈ zwlr_output_power_v1_mode ∧ 0 ∉ [1] ∧
    new_events sample.display (zwlr_output_power_v1_set_mode sample 12 0).display =
      [{ resource := 12, opcode := 1, args := [] }] ∧
    (zwlr_output_power_v1_set_mode sample 12 0).power_mode 8 = some 1 :=
  ⟨rfl, rfl, by decide, by decide,
   (set_mode_unsupported sample 12 0 8 { resource := 12, manager := 1, output := some 8 }
      { id := 8, mode := 1, supported := [1] } rfl rfl rfl (by decide) (by decide)).1,
   (set_mode_unsupported sample 12 0 8 { resource := 12, manager := 1, output := some 8 }
      { id := 8, mode := 1, supported := [1] } rfl rfl rfl (by decide) (by decide)).2.2.1⟩

theorem set_mode_supported_witness :
    sample.distinct_resources ∧
    sample.control 10 = some { resource := 10, manager := 1, output := some 7 } ∧
    sample.output 7 = some { id := 7, mode := 1, supported := [0, 1] } ∧
    (zwlr_output_power_v1_set_mode sample 10 0).power_mode 7 = some 0 ∧
    (new_events sample.display (zwlr_output_power_v1_set_mode sample 10 0).display).filter
      (fun e => e.resource = 11) = [{ resource := 11, opcode := 0, args := [0] }] ∧
    (new_events sample.display (zwlr_output_power_v1_set_mode sample 10 0).display).filter
      (fun e => e.resource = 10) = [{ resource := 10, opcode := 0, args := [0] }] :=
  ⟨by decide, rfl, rfl,
   (set_mode_supported sample 10 0 7 { resource := 10, manager := 1, output := some 7 }
      { id := 7, mode := 1, supported := [0, 1] } (by decide) rfl rfl rfl
      (by decide) (by decide)).1,
   (set_mode_supported sample 10 0 7 { resource := 10, manager := 1, output := some 7 }
      { id := 7, mode := 1, supported := [0, 1] } (by decide) rfl rfl rfl
      (by decide) (by decide)).2.1 { resource := 11, manager := 1, output := some 7 }
      (by decide) rfl,
   (set_mode_supported sample 10 0 7 { resource := 10, manager := 1, output := some 7 }
      { id := 7, mode := 1, supported := [0, 1] } (by decide) rfl rfl rfl
      (by decide) (by decide)).2.2.1⟩

end WlrOutputPower
